import Mathlib

/-!
Shallow embedding of the Lampshades pattern generator core:
`calculatePatternData` from src/patternCalculator.ts (geometry calculator)
and the page-tiling logic of `handlePrint` from src/PatternPreview.tsx.
Numbers are modelled by the real numbers (the source computes with JS
doubles and the transcendental functions `Math.sqrt`, `Math.PI`,
`Math.cos`, `Math.sin`); the tiler, which only divides, multiplies and
takes ceilings, is modelled over the rationals so it stays executable.
-/

namespace Lampshades

open Real

/-- Length units, from `types.ts` (`type Unit = 'in' | 'cm' | 'px'`).
Named `LengthUnit` because `Unit` is taken in Lean. -/
inductive LengthUnit where
  | inch
  | cm
  | px
deriving DecidableEq, Repr

/-- Shapes, from `types.ts` (`type Shape = 'cone' | 'empire' | 'drum'`). -/
inductive Shape where
  | cone
  | empire
  | drum
deriving DecidableEq, Repr

/-- `LampshadeDimensions` from `types.ts`. -/
structure LampshadeDimensions where
  topDiameter : ℝ
  bottomDiameter : ℝ
  height : ℝ
  unit : LengthUnit
  shape : Shape

/-- The `viewBox` string `minX minY width height` modelled as four reals. -/
structure ViewBox where
  minX : ℝ
  minY : ℝ
  width : ℝ
  height : ℝ

/-- One SVG path command of the `pathD` string built by the cone branch:
`M x y`, `L x y`, `A rx ry xRot largeArcFlag sweepFlag x y`, `Z`. -/
inductive PathCmd where
  | move (x y : ℝ)
  | line (x y : ℝ)
  | arc (rx ry xRot : ℝ) (largeArcFlag sweepFlag : ℕ) (x y : ℝ)
  | close

/-- `PatternData` from `types.ts`: a tagged union of the drum and cone
variants, with the fields the source returns. -/
inductive PatternData where
  | drum (circumference : ℝ) (viewBox : ViewBox) (width height : ℝ)
      (dimensions : LampshadeDimensions)
  | cone (pathD : List PathCmd) (viewBox : ViewBox) (width height : ℝ)
      (dimensions : LampshadeDimensions)
      (slantHeight topArcLength bottomArcLength : ℝ)

/-- The two `throw new Error(...)` sites of `calculatePatternData`:
`invalidTaper` is "Bottom diameter must be larger than top diameter.",
`angleOverflow` is "The resulting pattern angle is too large. This geometry
is not possible.". -/
inductive GeometryError where
  | invalidTaper
  | angleOverflow
deriving DecidableEq, Repr

/-- `const rTop = dims.topDiameter / 2`. -/
noncomputable def rTopOf (dims : LampshadeDimensions) : ℝ :=
  dims.topDiameter / 2

/-- `const rBottom = dims.bottomDiameter / 2`. -/
noncomputable def rBottomOf (dims : LampshadeDimensions) : ℝ :=
  dims.bottomDiameter / 2

/-- `const slantHeight = Math.sqrt(Math.pow(verticalHeight, 2) + Math.pow(rBottom - rTop, 2))`. -/
noncomputable def slantHeightOf (dims : LampshadeDimensions) : ℝ :=
  Real.sqrt (dims.height ^ 2 + (rBottomOf dims - rTopOf dims) ^ 2)

/-- `const LTop = (slantHeight * rTop) / (rBottom - rTop)`. -/
noncomputable def LTopOf (dims : LampshadeDimensions) : ℝ :=
  slantHeightOf dims * rTopOf dims / (rBottomOf dims - rTopOf dims)

/-- `const LBottom = (slantHeight * rBottom) / (rBottom - rTop)`. -/
noncomputable def LBottomOf (dims : LampshadeDimensions) : ℝ :=
  slantHeightOf dims * rBottomOf dims / (rBottomOf dims - rTopOf dims)

/-- `const angle = (2 * Math.PI * rBottom) / LBottom`. -/
noncomputable def angleOf (dims : LampshadeDimensions) : ℝ :=
  2 * π * rBottomOf dims / LBottomOf dims

/-- `const startAngle = -angle / 2`. -/
noncomputable def startAngleOf (dims : LampshadeDimensions) : ℝ :=
  -angleOf dims / 2

/-- `const endAngle = angle / 2`. -/
noncomputable def endAngleOf (dims : LampshadeDimensions) : ℝ :=
  angleOf dims / 2

/-- `const p1x = LTop * Math.cos(startAngle)`. -/
noncomputable def p1xOf (dims : LampshadeDimensions) : ℝ :=
  LTopOf dims * Real.cos (startAngleOf dims)

/-- `const p1y = LTop * Math.sin(startAngle)`. -/
noncomputable def p1yOf (dims : LampshadeDimensions) : ℝ :=
  LTopOf dims * Real.sin (startAngleOf dims)

/-- `const p2x = LBottom * Math.cos(startAngle)`. -/
noncomputable def p2xOf (dims : LampshadeDimensions) : ℝ :=
  LBottomOf dims * Real.cos (startAngleOf dims)

/-- `const p2y = LBottom * Math.sin(startAngle)`. -/
noncomputable def p2yOf (dims : LampshadeDimensions) : ℝ :=
  LBottomOf dims * Real.sin (startAngleOf dims)

/-- `const p3x = LBottom * Math.cos(endAngle)`. -/
noncomputable def p3xOf (dims : LampshadeDimensions) : ℝ :=
  LBottomOf dims * Real.cos (endAngleOf dims)

/-- `const p3y = LBottom * Math.sin(endAngle)`. -/
noncomputable def p3yOf (dims : LampshadeDimensions) : ℝ :=
  LBottomOf dims * Real.sin (endAngleOf dims)

/-- `const p4x = LTop * Math.cos(endAngle)`. -/
noncomputable def p4xOf (dims : LampshadeDimensions) : ℝ :=
  LTopOf dims * Real.cos (endAngleOf dims)

/-- `const p4y = LTop * Math.sin(endAngle)`. -/
noncomputable def p4yOf (dims : LampshadeDimensions) : ℝ :=
  LTopOf dims * Real.sin (endAngleOf dims)

/-- `const largeArcFlag = angle > Math.PI ? 1 : 0`. -/
noncomputable def largeArcFlagOf (dims : LampshadeDimensions) : ℕ :=
  if π < angleOf dims then 1 else 0

/-- The `pathD` array: `M p1, L p2, A LBottom LBottom 0 flag 1 p3, L p4,
A LTop LTop 0 flag 0 p1, Z`. -/
noncomputable def pathDOf (dims : LampshadeDimensions) : List PathCmd :=
  [PathCmd.move (p1xOf dims) (p1yOf dims),
   PathCmd.line (p2xOf dims) (p2yOf dims),
   PathCmd.arc (LBottomOf dims) (LBottomOf dims) 0 (largeArcFlagOf dims) 1
     (p3xOf dims) (p3yOf dims),
   PathCmd.line (p4xOf dims) (p4yOf dims),
   PathCmd.arc (LTopOf dims) (LTopOf dims) 0 (largeArcFlagOf dims) 0
     (p1xOf dims) (p1yOf dims),
   PathCmd.close]

/-- `const allX = [p1x, p2x, p3x, p4x]` followed by
`if (angle < Math.PI) allX.push(LBottom)`. -/
noncomputable def allXOf (dims : LampshadeDimensions) : List ℝ :=
  [p1xOf dims, p2xOf dims, p3xOf dims, p4xOf dims] ++
    (if angleOf dims < π then [LBottomOf dims] else [])

/-- `const allY = [p1y, p2y, p3y, p4y]` followed by
`if (angle < Math.PI) allY.push(0)`. -/
noncomputable def allYOf (dims : LampshadeDimensions) : List ℝ :=
  [p1yOf dims, p2yOf dims, p3yOf dims, p4yOf dims] ++
    (if angleOf dims < π then [(0 : ℝ)] else [])

/-- `const minX = Math.min(...allX)`: the minimum of the non-empty list,
folded from its own first element (`min` is idempotent, so seeding with the
head changes nothing). -/
noncomputable def minXOf (dims : LampshadeDimensions) : ℝ :=
  (allXOf dims).foldl min (p1xOf dims)

/-- `const maxX = Math.max(...allX)`. -/
noncomputable def maxXOf (dims : LampshadeDimensions) : ℝ :=
  (allXOf dims).foldl max (p1xOf dims)

/-- `const minY = Math.min(...allY)`. -/
noncomputable def minYOf (dims : LampshadeDimensions) : ℝ :=
  (allYOf dims).foldl min (p1yOf dims)

/-- `const maxY = Math.max(...allY)`. -/
noncomputable def maxYOf (dims : LampshadeDimensions) : ℝ :=
  (allYOf dims).foldl max (p1yOf dims)

/-- `const width = maxX - minX` (cone branch). -/
noncomputable def coneWidthOf (dims : LampshadeDimensions) : ℝ :=
  maxXOf dims - minXOf dims

/-- `const height = maxY - minY` (cone branch). -/
noncomputable def coneHeightOf (dims : LampshadeDimensions) : ℝ :=
  maxYOf dims - minYOf dims

/-- The cone branch's `viewBox: minX minY width height`. -/
noncomputable def coneViewBoxOf (dims : LampshadeDimensions) : ViewBox :=
  ⟨minXOf dims, minYOf dims, coneWidthOf dims, coneHeightOf dims⟩

/-- `calculatePatternData` from src/patternCalculator.ts.  The source
dispatches on `dims.topDiameter === dims.bottomDiameter` (the `shape` field
is not consulted), throws "Bottom diameter must be larger than top
diameter." when `rBottom <= rTop`, and throws "The resulting pattern angle
is too large." when `angle > 2 * Math.PI`; thrown errors are modelled as
`Except.error`. -/
noncomputable def calculatePatternData (dims : LampshadeDimensions) :
    Except GeometryError PatternData :=
  if dims.topDiameter = dims.bottomDiameter then
    Except.ok (PatternData.drum (π * dims.bottomDiameter)
      ⟨0, 0, π * dims.bottomDiameter, dims.height⟩
      (π * dims.bottomDiameter) dims.height dims)
  else if rBottomOf dims ≤ rTopOf dims then
    Except.error GeometryError.invalidTaper
  else if 2 * π < angleOf dims then
    Except.error GeometryError.angleOverflow
  else
    Except.ok (PatternData.cone (pathDOf dims) (coneViewBoxOf dims)
      (coneWidthOf dims) (coneHeightOf dims) dims (slantHeightOf dims)
      (π * dims.topDiameter) (π * dims.bottomDiameter))

/-- Modelled from the spec: the closed four-segment boundary the cone
branch's `pathD` string denotes — "inner-radius endpoint at `-θ/2`,
outer-radius endpoint at `-θ/2`, outer arc sweep to `+θ/2`, inner-radius
endpoint at `+θ/2`, inner arc sweep back to `-θ/2`", i.e. the two
concentric arcs of radii `lTop`, `lBot` over polar angles `[-θ/2, θ/2]`
and the two radial segments at the end angles.  The source only builds the
SVG string; its geometric meaning is taken from the spec's step 5. -/
def sectorBoundary (lTop lBot θ : ℝ) : Set (ℝ × ℝ) :=
  {p | ∃ φ, -(θ / 2) ≤ φ ∧ φ ≤ θ / 2 ∧
      (p = (lBot * Real.cos φ, lBot * Real.sin φ) ∨
        p = (lTop * Real.cos φ, lTop * Real.sin φ))} ∪
  {p | ∃ r, lTop ≤ r ∧ r ≤ lBot ∧
      (p = (r * Real.cos (-(θ / 2)), r * Real.sin (-(θ / 2))) ∨
        p = (r * Real.cos (θ / 2), r * Real.sin (θ / 2)))}

/-- `dims` with top and bottom diameters exchanged (the spec's swap test). -/
def swapDiameters (dims : LampshadeDimensions) : LampshadeDimensions :=
  { dims with
      topDiameter := dims.bottomDiameter
      bottomDiameter := dims.topDiameter }

/-! ## The page tiler (`handlePrint` in src/PatternPreview.tsx) -/

/-- `const PPI = 96`. -/
def PPI : ℚ := 96

/-- `convertToPx` from src/PatternPreview.tsx. -/
def convertToPx (value : ℚ) (u : LengthUnit) : ℚ :=
  match u with
  | LengthUnit.inch => value * PPI
  | LengthUnit.cm => value / 2.54 * PPI
  | LengthUnit.px => value

/-- `convertFromPx` from src/PatternPreview.tsx. -/
def convertFromPx (value : ℚ) (targetUnit : LengthUnit) : ℚ :=
  match targetUnit with
  | LengthUnit.inch => value / PPI
  | LengthUnit.cm => value / PPI * 2.54
  | LengthUnit.px => value

/-- `const cols = Math.ceil(patternWidthPx / printableWidthPx)`. -/
def gridCols (patternWidthPx pwPx : ℚ) : ℤ :=
  ⌈patternWidthPx / pwPx⌉

/-- `const rows = Math.ceil(patternHeightPx / printableHeightPx)`. -/
def gridRows (patternHeightPx phPx : ℚ) : ℤ :=
  ⌈patternHeightPx / phPx⌉

/-- Edges of a printed page carrying an alignment mark. -/
inductive Edge where
  | top
  | bottom
  | left
  | right
deriving DecidableEq, Repr

/-- One alignment mark: the edge it sits on and the 0-based grid position
of the neighbouring page it joins to. -/
structure JoinMark where
  edge : Edge
  targetRow : ℕ
  targetCol : ℕ
deriving DecidableEq, Repr

/-- The alignment marks `handlePrint` adds to the page at `(row, col)`:
a top mark joining to `(row-1, col)` iff `row > 0`, a bottom mark joining
to `(row+1, col)` iff `row < rows-1`, a left mark joining to `(row, col-1)`
iff `col > 0`, a right mark joining to `(row, col+1)` iff `col < cols-1`
(the source renders the targets 1-based as `R${...}, C${...}`). -/
def joinMarks (rows cols row col : ℕ) : List JoinMark :=
  (if 0 < row then [⟨Edge.top, row - 1, col⟩] else []) ++
  (if row < rows - 1 then [⟨Edge.bottom, row + 1, col⟩] else []) ++
  (if 0 < col then [⟨Edge.left, row, col - 1⟩] else []) ++
  (if col < cols - 1 then [⟨Edge.right, row, col + 1⟩] else [])

/-- One printed page: its grid position, the translation applied to the
pattern inside it (`svgWrapper.style.left = -col * printableWidthPx`,
`.top = -row * printableHeightPx`), and its alignment marks. -/
structure PageTile where
  row : ℕ
  col : ℕ
  offsetX : ℚ
  offsetY : ℚ
  marks : List JoinMark
deriving DecidableEq, Repr

/-- The double loop `for (row = 0..rows-1) for (col = 0..cols-1)` building
one page per grid cell, in row-major order. -/
def pagesOf (rows cols : ℕ) (pwPx phPx : ℚ) : List PageTile :=
  (List.range rows).flatMap fun row =>
    (List.range cols).map fun col =>
      ⟨row, col, -(col * pwPx), -(row * phPx), joinMarks rows cols row col⟩

/-- The tiler's failure: `alert('This pattern is too large to print
automatically (more than 50 pages). ...')` followed by `return`. -/
inductive TileError where
  | patternTooLarge
deriving DecidableEq, Repr

/-- The layout `handlePrint` renders when it does not bail out. -/
structure PageLayout where
  rows : ℕ
  cols : ℕ
  pages : List PageTile
deriving DecidableEq, Repr

/-- The tiling core of `handlePrint`: grid size from ceilings, the
hard-coded safety break `if (cols * rows > 50)` producing no pages at all,
else the full row-major page list. -/
def handlePrintLayout (wPx hPx pwPx phPx : ℚ) : Except TileError PageLayout :=
  if 50 < (gridCols wPx pwPx).toNat * (gridRows hPx phPx).toNat then
    Except.error TileError.patternTooLarge
  else
    Except.ok ⟨(gridRows hPx phPx).toNat, (gridCols wPx pwPx).toNat,
      pagesOf (gridRows hPx phPx).toNat (gridCols wPx pwPx).toNat pwPx phPx⟩

/-! ## Shared helper facts -/

/-- Concrete frustum input of the spec's scenario B. -/
def dims20_30 : LampshadeDimensions :=
  ⟨20, 30, 20, LengthUnit.cm, Shape.cone⟩

lemma rTop_dims20_30 : rTopOf dims20_30 = 10 := by
  norm_num [rTopOf, dims20_30]

lemma rBottom_dims20_30 : rBottomOf dims20_30 = 15 := by
  norm_num [rBottomOf, dims20_30]

lemma slantHeight_dims20_30 : slantHeightOf dims20_30 = Real.sqrt 425 := by
  have : ((20 : ℝ) ^ 2 + (15 - 10) ^ 2) = 425 := by norm_num
  simp only [slantHeightOf, rTop_dims20_30, rBottom_dims20_30]
  rw [show dims20_30.height = (20 : ℝ) from rfl, this]

lemma sqrt425_pos : 0 < Real.sqrt 425 := by
  rw [Real.sqrt_pos]; norm_num

lemma sqrt425_lb : 20.6155 < Real.sqrt 425 := by
  rw [show (20.6155 : ℝ) = 20.6155 from rfl, Real.lt_sqrt (by norm_num)]
  norm_num

lemma sqrt425_ub : Real.sqrt 425 < 20.6156 := by
  rw [Real.sqrt_lt' (by norm_num)]
  norm_num

lemma LBottom_dims20_30 : LBottomOf dims20_30 = 3 * Real.sqrt 425 := by
  rw [LBottomOf, slantHeight_dims20_30, rTop_dims20_30, rBottom_dims20_30]
  ring

lemma LTop_dims20_30 : LTopOf dims20_30 = 2 * Real.sqrt 425 := by
  rw [LTopOf, slantHeight_dims20_30, rTop_dims20_30, rBottom_dims20_30]
  ring

lemma angle_dims20_30 : angleOf dims20_30 = 10 * π / Real.sqrt 425 := by
  rw [angleOf, LBottom_dims20_30, rBottom_dims20_30]
  have h := sqrt425_pos.ne'
  field_simp
  ring

lemma angle_dims20_30_lb : 1.523 < angleOf dims20_30 := by
  rw [angle_dims20_30, lt_div_iff₀ sqrt425_pos]
  nlinarith [sqrt425_ub, Real.pi_gt_d4]

lemma angle_dims20_30_ub : angleOf dims20_30 < 1.525 := by
  rw [angle_dims20_30, div_lt_iff₀ sqrt425_pos]
  nlinarith [sqrt425_lb, Real.pi_lt_d4]

lemma rsub_pos (dims : LampshadeDimensions)
    (htaper : dims.topDiameter < dims.bottomDiameter) :
    0 < rBottomOf dims - rTopOf dims := by
  rw [rBottomOf, rTopOf]; linarith

lemma slantHeight_pos (dims : LampshadeDimensions) (hh : dims.height ≠ 0) :
    0 < slantHeightOf dims := by
  rw [slantHeightOf, Real.sqrt_pos]
  have := pow_two_pos_of_ne_zero hh
  nlinarith [sq_nonneg (rBottomOf dims - rTopOf dims)]

lemma rsub_lt_slantHeight (dims : LampshadeDimensions)
    (htaper : dims.topDiameter < dims.bottomDiameter) (hh : dims.height ≠ 0) :
    rBottomOf dims - rTopOf dims < slantHeightOf dims := by
  rw [slantHeightOf, Real.lt_sqrt (rsub_pos dims htaper).le]
  have := pow_two_pos_of_ne_zero hh
  linarith

lemma angle_eq_rsub_div_slant (dims : LampshadeDimensions)
    (hbot : 0 < dims.bottomDiameter)
    (htaper : dims.topDiameter < dims.bottomDiameter) (hh : dims.height ≠ 0) :
    angleOf dims = 2 * π * (rBottomOf dims - rTopOf dims) / slantHeightOf dims := by
  have hb : rBottomOf dims ≠ 0 := by rw [rBottomOf]; positivity
  have hd : rBottomOf dims - rTopOf dims ≠ 0 := (rsub_pos dims htaper).ne'
  have hs : slantHeightOf dims ≠ 0 := (slantHeight_pos dims hh).ne'
  rw [angleOf, LBottomOf]
  field_simp
  ring

lemma angle_lt_two_pi (dims : LampshadeDimensions)
    (hbot : 0 < dims.bottomDiameter)
    (htaper : dims.topDiameter < dims.bottomDiameter) (hh : dims.height ≠ 0) :
    angleOf dims < 2 * π := by
  rw [angle_eq_rsub_div_slant dims hbot htaper hh,
    div_lt_iff₀ (slantHeight_pos dims hh)]
  have h1 := rsub_lt_slantHeight dims htaper hh
  nlinarith [Real.pi_pos]

lemma angle_pos (dims : LampshadeDimensions)
    (hbot : 0 < dims.bottomDiameter)
    (htaper : dims.topDiameter < dims.bottomDiameter) (hh : dims.height ≠ 0) :
    0 < angleOf dims := by
  rw [angle_eq_rsub_div_slant dims hbot htaper hh]
  have h1 := rsub_pos dims htaper
  have h2 := slantHeight_pos dims hh
  have := Real.pi_pos
  positivity

/-- For a strictly tapered input with positive height, none of the three
branch guards fires and the cone pattern is returned. -/
lemma calculate_ok (dims : LampshadeDimensions)
    (hbot : 0 < dims.bottomDiameter)
    (htaper : dims.topDiameter < dims.bottomDiameter) (hh : 0 < dims.height) :
    calculatePatternData dims =
      Except.ok (PatternData.cone (pathDOf dims) (coneViewBoxOf dims)
        (coneWidthOf dims) (coneHeightOf dims) dims (slantHeightOf dims)
        (π * dims.topDiameter) (π * dims.bottomDiameter)) := by
  have h1 : rTopOf dims < rBottomOf dims := by rw [rBottomOf, rTopOf]; linarith
  rw [calculatePatternData, if_neg (ne_of_lt htaper), if_neg (not_le.mpr h1),
    if_neg (not_lt.mpr (angle_lt_two_pi dims hbot htaper hh.ne').le)]

lemma angle_dims20_30_lt_pi : angleOf dims20_30 < π := by
  have := angle_dims20_30_ub
  have := Real.pi_gt_d4
  linarith

/-! ## C5 -/

/-- C5: for every equal-diameter (drum) input with positive diameter `d`
and positive height `h`, `calculatePatternData` returns the drum rectangle
of width exactly `π * d` and height exactly `h`, with bounding viewBox
`0 0 width height`. -/
theorem c5_drum_rectangle (d h : ℝ) (u : LengthUnit) (s : Shape)
    (hd : 0 < d) (hh : 0 < h) :
    calculatePatternData ⟨d, d, h, u, s⟩ =
      Except.ok (PatternData.drum (π * d) ⟨0, 0, π * d, h⟩ (π * d) h
        ⟨d, d, h, u, s⟩) := by
  rw [calculatePatternData, if_pos rfl]

/-- C5 witness at `d = 30`, `h = 20` (the spec's scenario A, in cm). -/
theorem c5_drum_rectangle_witness :
    (0 : ℝ) < 30 ∧ (0 : ℝ) < 20 ∧
    calculatePatternData ⟨30, 30, 20, LengthUnit.cm, Shape.drum⟩ =
      Except.ok (PatternData.drum (π * 30) ⟨0, 0, π * 30, 20⟩ (π * 30) 20
        ⟨30, 30, 20, LengthUnit.cm, Shape.drum⟩) :=
  ⟨by norm_num, by norm_num,
    c5_drum_rectangle 30 20 LengthUnit.cm Shape.drum (by norm_num) (by norm_num)⟩

/-! ## C2 -/

/-- C2 counterexample: the input `shape = cone, topDiameter = bottomDiameter
= 10, height = 5` has a tapered shape class and `bottomDiameter ≤
topDiameter`, yet `calculatePatternData` does not fail with `InvalidTaper`:
the equality dispatch sends it down the drum branch and it succeeds. -/
theorem c2_equal_diameters_counterexample :
    (calculatePatternData ⟨10, 10, 5, LengthUnit.cm, Shape.cone⟩).isOk = true := by
  rw [calculatePatternData, if_pos rfl]
  rfl

/-- C2 amended: `calculatePatternData` fails with `InvalidTaper` for every
input whose `bottomDiameter` is strictly smaller than its `topDiameter`
(whatever the `shape` field says; inputs with equal diameters instead take
the drum branch), and swapping the diameters of a strictly tapered input
always yields `InvalidTaper`, never a silent wrong pattern. -/
theorem c2_invalid_taper (dims : LampshadeDimensions) :
    (dims.bottomDiameter < dims.topDiameter →
      calculatePatternData dims = Except.error GeometryError.invalidTaper) ∧
    (dims.topDiameter < dims.bottomDiameter →
      calculatePatternData (swapDiameters dims) =
        Except.error GeometryError.invalidTaper) := by
  constructor
  · intro hlt
    rw [calculatePatternData, if_neg (by exact fun h => absurd h (ne_of_gt hlt)),
      if_pos (by rw [rBottomOf, rTopOf]; linarith)]
  · intro hlt
    have h1 : (swapDiameters dims).bottomDiameter < (swapDiameters dims).topDiameter := hlt
    rw [calculatePatternData, if_neg (by exact fun h => absurd h (ne_of_gt h1)),
      if_pos (by rw [rBottomOf, rTopOf]; exact by linarith [h1])]

/-- C2 witness: the inverted input `top = 30, bottom = 20` (the spec's
scenario C) is rejected with `InvalidTaper`. -/
theorem c2_invalid_taper_witness :
    (20 : ℝ) < 30 ∧
    calculatePatternData ⟨30, 20, 10, LengthUnit.cm, Shape.cone⟩ =
      Except.error GeometryError.invalidTaper :=
  ⟨by norm_num,
    (c2_invalid_taper ⟨30, 20, 10, LengthUnit.cm, Shape.cone⟩).1 (by norm_num)⟩

/-! ## C1 helper development -/

lemma p1x_eq (dims : LampshadeDimensions) :
    p1xOf dims = LTopOf dims * Real.cos (angleOf dims / 2) := by
  rw [p1xOf, startAngleOf, neg_div, Real.cos_neg]

lemma p1y_eq (dims : LampshadeDimensions) :
    p1yOf dims = -(LTopOf dims * Real.sin (angleOf dims / 2)) := by
  rw [p1yOf, startAngleOf, neg_div, Real.sin_neg, mul_neg]

lemma p2x_eq (dims : LampshadeDimensions) :
    p2xOf dims = LBottomOf dims * Real.cos (angleOf dims / 2) := by
  rw [p2xOf, startAngleOf, neg_div, Real.cos_neg]

lemma p2y_eq (dims : LampshadeDimensions) :
    p2yOf dims = -(LBottomOf dims * Real.sin (angleOf dims / 2)) := by
  rw [p2yOf, startAngleOf, neg_div, Real.sin_neg, mul_neg]

lemma p3x_eq (dims : LampshadeDimensions) :
    p3xOf dims = LBottomOf dims * Real.cos (angleOf dims / 2) := by
  rw [p3xOf, endAngleOf]

lemma p3y_eq (dims : LampshadeDimensions) :
    p3yOf dims = LBottomOf dims * Real.sin (angleOf dims / 2) := by
  rw [p3yOf, endAngleOf]

lemma p4x_eq (dims : LampshadeDimensions) :
    p4xOf dims = LTopOf dims * Real.cos (angleOf dims / 2) := by
  rw [p4xOf, endAngleOf]

lemma p4y_eq (dims : LampshadeDimensions) :
    p4yOf dims = LTopOf dims * Real.sin (angleOf dims / 2) := by
  rw [p4yOf, endAngleOf]

lemma LTop_pos (dims : LampshadeDimensions) (htop : 0 < dims.topDiameter)
    (htaper : dims.topDiameter < dims.bottomDiameter) (hh : dims.height ≠ 0) :
    0 < LTopOf dims := by
  rw [LTopOf]
  have h1 := slantHeight_pos dims hh
  have h2 := rsub_pos dims htaper
  have h3 : 0 < rTopOf dims := by rw [rTopOf]; linarith
  positivity

lemma LTop_lt_LBottom (dims : LampshadeDimensions)
    (htaper : dims.topDiameter < dims.bottomDiameter) (hh : dims.height ≠ 0) :
    LTopOf dims < LBottomOf dims := by
  rw [LTopOf, LBottomOf]
  have h1 := slantHeight_pos dims hh
  have h2 := rsub_pos dims htaper
  have h3 : rTopOf dims < rBottomOf dims := by rw [rTopOf, rBottomOf]; linarith
  rw [div_lt_div_iff h2 h2]
  exact mul_lt_mul_of_pos_right (mul_lt_mul_of_pos_left h3 h1) h2

lemma annulus_y_le (lBot θ r φ : ℝ) (hr0 : 0 ≤ r) (hr2 : r ≤ lBot)
    (hθ0 : 0 ≤ θ) (hθπ : θ < π) (hφ1 : -(θ / 2) ≤ φ) (hφ2 : φ ≤ θ / 2) :
    r * Real.sin φ ≤ lBot * Real.sin (θ / 2) := by
  have hπ := Real.pi_pos
  have hs : 0 ≤ Real.sin (θ / 2) :=
    Real.sin_nonneg_of_nonneg_of_le_pi (by linarith) (by linarith)
  rcases le_or_lt (Real.sin φ) 0 with h | h
  · have h2 : 0 ≤ lBot * Real.sin (θ / 2) := mul_nonneg (hr0.trans hr2) hs
    nlinarith [mul_nonneg hr0 (neg_nonneg.mpr h)]
  · have hsin : Real.sin φ ≤ Real.sin (θ / 2) :=
      Real.sin_le_sin_of_le_of_le_pi_div_two (by linarith) (by linarith) hφ2
    exact mul_le_mul hr2 hsin h.le (hr0.trans hr2)

/-- Every point `(r·cos φ, r·sin φ)` of the closed annular sector with
radii `lTop ≤ lBot` and half-angle `θ/2 < π/2` lies inside the rectangle
the four corners and the outer-arc midpoint span. -/
lemma annulus_bounds (lTop lBot θ r φ : ℝ) (hl0 : 0 ≤ lTop) (hr1 : lTop ≤ r)
    (hr2 : r ≤ lBot) (hθ0 : 0 ≤ θ) (hθπ : θ < π)
    (hφ1 : -(θ / 2) ≤ φ) (hφ2 : φ ≤ θ / 2) :
    lTop * Real.cos (θ / 2) ≤ r * Real.cos φ ∧ r * Real.cos φ ≤ lBot ∧
    -(lBot * Real.sin (θ / 2)) ≤ r * Real.sin φ ∧
    r * Real.sin φ ≤ lBot * Real.sin (θ / 2) := by
  have hπ := Real.pi_pos
  have hr0 : 0 ≤ r := hl0.trans hr1
  have hc2 : 0 ≤ Real.cos (θ / 2) :=
    Real.cos_nonneg_of_mem_Icc ⟨by linarith, by linarith⟩
  have habs : |φ| ≤ θ / 2 := abs_le.mpr ⟨by linarith, hφ2⟩
  have hcos : Real.cos (θ / 2) ≤ Real.cos φ := by
    rw [← Real.cos_abs φ]
    exact Real.cos_le_cos_of_nonneg_of_le_pi (abs_nonneg φ) (by linarith) habs
  refine ⟨mul_le_mul hr1 hcos hc2 hr0, ?_, ?_, ?_⟩
  · calc r * Real.cos φ ≤ r * 1 :=
        mul_le_mul_of_nonneg_left (Real.cos_le_one φ) hr0
      _ = r := mul_one r
      _ ≤ lBot := hr2
  · have hneg := annulus_y_le lBot θ r (-φ) hr0 hr2 hθ0 hθπ
      (by linarith) (by linarith)
    rw [Real.sin_neg, mul_neg] at hneg
    linarith
  · exact annulus_y_le lBot θ r φ hr0 hr2 hθ0 hθπ hφ1 hφ2

lemma foldl_min_xlist (x y z : ℝ) (hxy : x ≤ y) (hxz : x ≤ z) :
    List.foldl min x [x, y, y, x, z] = x := by
  simp [List.foldl, min_self, min_eq_left hxy, min_eq_left hxz]

lemma foldl_max_xlist (x y z : ℝ) (hxy : x ≤ y) (hyz : y ≤ z) :
    List.foldl max x [x, y, y, x, z] = z := by
  simp [List.foldl, max_self, max_eq_right hxy, max_eq_left hxy,
    max_eq_right hyz]

lemma foldl_min_ylist (a b u v : ℝ) (hba : b ≤ a) (hbu : b ≤ u) (hbv : b ≤ v)
    (hb0 : b ≤ 0) :
    List.foldl min a [a, b, u, v, 0] = b := by
  simp [List.foldl, min_self, min_eq_right hba, min_eq_left hbu,
    min_eq_left hbv, min_eq_left hb0]

lemma foldl_max_ylist (a b u v : ℝ) (hba : b ≤ a) (hau : a ≤ u) (hvu : v ≤ u)
    (h0u : 0 ≤ u) :
    List.foldl max a [a, b, u, v, 0] = u := by
  simp [List.foldl, max_self, max_eq_left hba, max_eq_right hau,
    max_eq_left hvu, max_eq_left h0u]

/-- When the sector angle is below `π`, the code's extremes (four corners
plus the outer-arc midpoint) evaluate to closed forms. -/
lemma cone_extremes (dims : LampshadeDimensions) (htop : 0 < dims.topDiameter)
    (htaper : dims.topDiameter < dims.bottomDiameter) (hh : 0 < dims.height)
    (hang : angleOf dims < π) :
    minXOf dims = LTopOf dims * Real.cos (angleOf dims / 2) ∧
    maxXOf dims = LBottomOf dims ∧
    minYOf dims = -(LBottomOf dims * Real.sin (angleOf dims / 2)) ∧
    maxYOf dims = LBottomOf dims * Real.sin (angleOf dims / 2) := by
  have hπ := Real.pi_pos
  have hbot : 0 < dims.bottomDiameter := by linarith
  have hA := LTop_pos dims htop htaper hh.ne'
  have hAB := LTop_lt_LBottom dims htaper hh.ne'
  have hB : 0 < LBottomOf dims := hA.trans hAB
  have hθ0 := angle_pos dims hbot htaper hh.ne'
  have hc : 0 ≤ Real.cos (angleOf dims / 2) :=
    Real.cos_nonneg_of_mem_Icc ⟨by linarith, by linarith⟩
  have hs : 0 ≤ Real.sin (angleOf dims / 2) :=
    Real.sin_nonneg_of_nonneg_of_le_pi (by linarith) (by linarith)
  have hc1 : Real.cos (angleOf dims / 2) ≤ 1 := Real.cos_le_one _
  have hACBC : LTopOf dims * Real.cos (angleOf dims / 2) ≤
      LBottomOf dims * Real.cos (angleOf dims / 2) :=
    mul_le_mul_of_nonneg_right hAB.le hc
  have hACB : LTopOf dims * Real.cos (angleOf dims / 2) ≤ LBottomOf dims :=
    (mul_le_of_le_one_right hA.le hc1).trans hAB.le
  have hBCB : LBottomOf dims * Real.cos (angleOf dims / 2) ≤ LBottomOf dims :=
    mul_le_of_le_one_right hB.le hc1
  have hASBS : LTopOf dims * Real.sin (angleOf dims / 2) ≤
      LBottomOf dims * Real.sin (angleOf dims / 2) :=
    mul_le_mul_of_nonneg_right hAB.le hs
  have hAS0 : 0 ≤ LTopOf dims * Real.sin (angleOf dims / 2) :=
    mul_nonneg hA.le hs
  have hBS0 : 0 ≤ LBottomOf dims * Real.sin (angleOf dims / 2) :=
    mul_nonneg hB.le hs
  refine ⟨?_, ?_, ?_, ?_⟩
  · rw [minXOf, allXOf, if_pos hang]
    simp only [List.cons_append, List.nil_append]
    rw [p1x_eq, p2x_eq, p3x_eq, p4x_eq]
    exact foldl_min_xlist _ _ _ hACBC hACB
  · rw [maxXOf, allXOf, if_pos hang]
    simp only [List.cons_append, List.nil_append]
    rw [p1x_eq, p2x_eq, p3x_eq, p4x_eq]
    exact foldl_max_xlist _ _ _ hACBC hBCB
  · rw [minYOf, allYOf, if_pos hang]
    simp only [List.cons_append, List.nil_append]
    rw [p1y_eq, p2y_eq, p3y_eq, p4y_eq]
    exact foldl_min_ylist _ _ _ _ (by linarith) (by linarith) (by linarith)
      (by linarith)
  · rw [maxYOf, allYOf, if_pos hang]
    simp only [List.cons_append, List.nil_append]
    rw [p1y_eq, p2y_eq, p3y_eq, p4y_eq]
    exact foldl_max_ylist _ _ _ _ (by linarith) (by linarith) hASBS hBS0

/-! ## C1 -/

/-- C1 amended: when the sector angle is below `π` the computed box is the
minimal axis-aligned box containing the whole sector boundary: every
boundary point lies between the computed extremes, the outer-arc midpoint
`(outerRadius, 0)` lies on the boundary and realizes `maxX`, and each of
the other three extremes is realized by a boundary point.  (For `θ ≥ π`
the claim fails: see the counterexample, where the corner-only box misses
the outer arc.) -/
theorem c1_bounding_box (dims : LampshadeDimensions)
    (htop : 0 < dims.topDiameter)
    (htaper : dims.topDiameter < dims.bottomDiameter) (hh : 0 < dims.height)
    (hang : angleOf dims < π) :
    (∀ p ∈ sectorBoundary (LTopOf dims) (LBottomOf dims) (angleOf dims),
      minXOf dims ≤ p.1 ∧ p.1 ≤ maxXOf dims ∧
      minYOf dims ≤ p.2 ∧ p.2 ≤ maxYOf dims) ∧
    ((LBottomOf dims, (0 : ℝ)) ∈
        sectorBoundary (LTopOf dims) (LBottomOf dims) (angleOf dims) ∧
      (LBottomOf dims, (0 : ℝ)).1 = maxXOf dims) ∧
    (∃ p ∈ sectorBoundary (LTopOf dims) (LBottomOf dims) (angleOf dims),
      p.1 = minXOf dims) ∧
    (∃ p ∈ sectorBoundary (LTopOf dims) (LBottomOf dims) (angleOf dims),
      p.2 = minYOf dims) ∧
    (∃ p ∈ sectorBoundary (LTopOf dims) (LBottomOf dims) (angleOf dims),
      p.2 = maxYOf dims) := by
  obtain ⟨hminX, hmaxX, hminY, hmaxY⟩ := cone_extremes dims htop htaper hh hang
  have hπ := Real.pi_pos
  have hbot : 0 < dims.bottomDiameter := by linarith
  have hA := LTop_pos dims htop htaper hh.ne'
  have hAB := LTop_lt_LBottom dims htaper hh.ne'
  have hθ0 := angle_pos dims hbot htaper hh.ne'
  refine ⟨?_, ⟨?_, ?_⟩, ?_, ?_, ?_⟩
  · intro p hp
    simp only [sectorBoundary, Set.mem_union, Set.mem_setOf_eq] at hp
    rcases hp with ⟨φ, hφ1, hφ2, hpe | hpe⟩ | ⟨r, hr1, hr2, hpe | hpe⟩ <;>
      subst hpe
    · simpa [hminX, hmaxX, hminY, hmaxY] using
        annulus_bounds (LTopOf dims) (LBottomOf dims) (angleOf dims)
          (LBottomOf dims) φ hA.le hAB.le le_rfl hθ0.le hang hφ1 hφ2
    · simpa [hminX, hmaxX, hminY, hmaxY] using
        annulus_bounds (LTopOf dims) (LBottomOf dims) (angleOf dims)
          (LTopOf dims) φ hA.le le_rfl hAB.le hθ0.le hang hφ1 hφ2
    · simpa [hminX, hmaxX, hminY, hmaxY] using
        annulus_bounds (LTopOf dims) (LBottomOf dims) (angleOf dims)
          r (-(angleOf dims / 2)) hA.le hr1 hr2 hθ0.le hang le_rfl
          (by linarith)
    · simpa [hminX, hmaxX, hminY, hmaxY] using
        annulus_bounds (LTopOf dims) (LBottomOf dims) (angleOf dims)
          r (angleOf dims / 2) hA.le hr1 hr2 hθ0.le hang (by linarith) le_rfl
  · exact Set.mem_union_left _
      ⟨0, by linarith, by linarith, Or.inl (by simp)⟩
  · simp [hmaxX]
  · exact ⟨(LTopOf dims * Real.cos (angleOf dims / 2),
      LTopOf dims * Real.sin (angleOf dims / 2)),
      Set.mem_union_left _ ⟨angleOf dims / 2, by linarith, le_rfl, Or.inr rfl⟩,
      hminX.symm⟩
  · refine ⟨(LBottomOf dims * Real.cos (-(angleOf dims / 2)),
      LBottomOf dims * Real.sin (-(angleOf dims / 2))),
      Set.mem_union_left _ ⟨-(angleOf dims / 2), le_rfl, by linarith,
        Or.inl rfl⟩, ?_⟩
    simp only [Real.sin_neg, mul_neg]
    rw [hminY]
  · exact ⟨(LBottomOf dims * Real.cos (angleOf dims / 2),
      LBottomOf dims * Real.sin (angleOf dims / 2)),
      Set.mem_union_left _ ⟨angleOf dims / 2, by linarith, le_rfl, Or.inl rfl⟩,
      hmaxY.symm⟩

/-- C1 witness at `top = 20, bottom = 30, height = 20`, whose sector angle
`10π/√425 ≈ 1.524` is below `π`. -/
theorem c1_bounding_box_witness :
    ((0 : ℝ) < 20 ∧ (20 : ℝ) < 30 ∧ angleOf dims20_30 < π) ∧
    ((∀ p ∈ sectorBoundary (LTopOf dims20_30) (LBottomOf dims20_30)
        (angleOf dims20_30),
      minXOf dims20_30 ≤ p.1 ∧ p.1 ≤ maxXOf dims20_30 ∧
      minYOf dims20_30 ≤ p.2 ∧ p.2 ≤ maxYOf dims20_30) ∧
    ((LBottomOf dims20_30, (0 : ℝ)) ∈
        sectorBoundary (LTopOf dims20_30) (LBottomOf dims20_30)
          (angleOf dims20_30) ∧
      (LBottomOf dims20_30, (0 : ℝ)).1 = maxXOf dims20_30) ∧
    (∃ p ∈ sectorBoundary (LTopOf dims20_30) (LBottomOf dims20_30)
        (angleOf dims20_30), p.1 = minXOf dims20_30) ∧
    (∃ p ∈ sectorBoundary (LTopOf dims20_30) (LBottomOf dims20_30)
        (angleOf dims20_30), p.2 = minYOf dims20_30) ∧
    (∃ p ∈ sectorBoundary (LTopOf dims20_30) (LBottomOf dims20_30)
        (angleOf dims20_30), p.2 = maxYOf dims20_30)) :=
  ⟨⟨by norm_num, by norm_num, angle_dims20_30_lt_pi⟩,
    c1_bounding_box dims20_30 (by norm_num [dims20_30])
      (by norm_num [dims20_30]) (by norm_num [dims20_30])
      angle_dims20_30_lt_pi⟩

/-- The frustum `top = 2, bottom = 10, height = 3`: its slant height is `5`
and its sector angle is `8π/5 > π`. -/
def dims2_10 : LampshadeDimensions :=
  ⟨2, 10, 3, LengthUnit.cm, Shape.cone⟩

lemma slantHeight_dims2_10 : slantHeightOf dims2_10 = 5 := by
  have h1 : rTopOf dims2_10 = 1 := by norm_num [rTopOf, dims2_10]
  have h2 : rBottomOf dims2_10 = 5 := by norm_num [rBottomOf, dims2_10]
  rw [slantHeightOf, h1, h2, show dims2_10.height = (3 : ℝ) from rfl,
    show ((3 : ℝ) ^ 2 + (5 - 1) ^ 2) = 5 ^ 2 by norm_num,
    Real.sqrt_sq (by norm_num)]

lemma LBottom_dims2_10 : LBottomOf dims2_10 = 25 / 4 := by
  rw [LBottomOf, slantHeight_dims2_10]
  norm_num [rTopOf, rBottomOf, dims2_10]

lemma angle_dims2_10 : angleOf dims2_10 = 8 * π / 5 := by
  rw [angleOf, LBottom_dims2_10]
  norm_num [rBottomOf, dims2_10]
  ring

/-- C1 counterexample: for `top = 2, bottom = 10, height = 3` the sector
angle is `8π/5 ≥ π`, the code takes the corner-only branch, and the
resulting box does NOT contain the boundary: the outer-arc midpoint
`(outerRadius, 0) = (6.25, 0)` is a boundary point strictly to the right
of the computed `maxX` (all four corner x-coordinates are `≤ 0` there), so
the corner-only box is not correct for `θ ≥ π`. -/
theorem c1_boundingbox_counterexample :
    (LBottomOf dims2_10, (0 : ℝ)) ∈
      sectorBoundary (LTopOf dims2_10) (LBottomOf dims2_10)
        (angleOf dims2_10) ∧
    maxXOf dims2_10 < (LBottomOf dims2_10, (0 : ℝ)).1 := by
  have hπ := Real.pi_pos
  have hang := angle_dims2_10
  have hcos : Real.cos (angleOf dims2_10 / 2) ≤ 0 := by
    rw [hang, show (8 : ℝ) * π / 5 / 2 = 4 * π / 5 by ring]
    exact Real.cos_nonpos_of_pi_div_two_le_of_le (by linarith) (by linarith)
  have hA : 0 ≤ LTopOf dims2_10 := by
    rw [LTopOf, slantHeight_dims2_10]
    norm_num [rTopOf, rBottomOf, dims2_10]
  have hB : 0 ≤ LBottomOf dims2_10 := by rw [LBottom_dims2_10]; norm_num
  constructor
  · refine Set.mem_union_left _ ⟨0, ?_, ?_, Or.inl (by simp)⟩
    · rw [hang]; linarith
    · rw [hang]; linarith
  · have hnot : ¬ angleOf dims2_10 < π := by rw [hang]; push_neg; linarith
    rw [maxXOf, allXOf, if_neg hnot]
    simp only [List.append_nil, List.foldl_cons, List.foldl_nil]
    rw [p1x_eq, p2x_eq, p3x_eq, p4x_eq]
    have h1 : LTopOf dims2_10 * Real.cos (angleOf dims2_10 / 2) ≤ 0 :=
      mul_nonpos_iff.mpr (Or.inl ⟨hA, hcos⟩)
    have h2 : LBottomOf dims2_10 * Real.cos (angleOf dims2_10 / 2) ≤ 0 :=
      mul_nonpos_iff.mpr (Or.inl ⟨hB, hcos⟩)
    have hfold : max (max (max
        (max (LTopOf dims2_10 * Real.cos (angleOf dims2_10 / 2))
          (LTopOf dims2_10 * Real.cos (angleOf dims2_10 / 2)))
        (LBottomOf dims2_10 * Real.cos (angleOf dims2_10 / 2)))
        (LBottomOf dims2_10 * Real.cos (angleOf dims2_10 / 2)))
        (LTopOf dims2_10 * Real.cos (angleOf dims2_10 / 2)) ≤ 0 :=
      max_le (max_le (max_le (max_le h1 h1) h2) h2) h1
    have hlb : (6 : ℝ) ≤ LBottomOf dims2_10 := by rw [LBottom_dims2_10]; norm_num
    exact lt_of_le_of_lt hfold (lt_of_lt_of_le (by norm_num : (0 : ℝ) < 6) hlb)

/-! ## C6 -/

/-- C6: for every valid frustum input (`topDiameter < bottomDiameter`,
positive height), the computed radii are `outerRadius = slantHeight *
rBottom / (rBottom - rTop)` and `innerRadius = slantHeight * rTop /
(rBottom - rTop)` with `slantHeight = sqrt(height² + (rBottom - rTop)²)`,
and consequently `outerRadius - innerRadius = slantHeight` (exactly, over
the reals). -/
theorem c6_radii_relation (dims : LampshadeDimensions)
    (htaper : dims.topDiameter < dims.bottomDiameter) (hh : 0 < dims.height) :
    LBottomOf dims =
      slantHeightOf dims * rBottomOf dims / (rBottomOf dims - rTopOf dims) ∧
    LTopOf dims =
      slantHeightOf dims * rTopOf dims / (rBottomOf dims - rTopOf dims) ∧
    slantHeightOf dims =
      Real.sqrt (dims.height ^ 2 + (rBottomOf dims - rTopOf dims) ^ 2) ∧
    LBottomOf dims - LTopOf dims = slantHeightOf dims := by
  refine ⟨rfl, rfl, rfl, ?_⟩
  have hd : rBottomOf dims - rTopOf dims ≠ 0 := (rsub_pos dims htaper).ne'
  rw [LBottomOf, LTopOf, div_sub_div_same, ← mul_sub, mul_div_assoc,
    div_self hd, mul_one]

/-- C6 witness at the scenario-B input `top = 20, bottom = 30, height = 20`. -/
theorem c6_radii_relation_witness :
    (20 : ℝ) < 30 ∧ (0 : ℝ) < 20 ∧
    LBottomOf dims20_30 - LTopOf dims20_30 = slantHeightOf dims20_30 :=
  ⟨by norm_num, by norm_num,
    (c6_radii_relation dims20_30 (by norm_num [dims20_30])
      (by norm_num [dims20_30])).2.2.2⟩

/-! ## C4 -/

/-- C4: for every input with positive (bottom) diameter, positive height and
`bottomDiameter > topDiameter`, the computed sector angle `2π·rBottom /
LBottom` equals `2π·(rBottom - rTop) / slantHeight`, which is strictly less
than `2π` because `slantHeight > rBottom - rTop`; hence the angle-overflow
branch is unreachable and `calculatePatternData` succeeds. -/
theorem c4_overflow_unreachable (dims : LampshadeDimensions)
    (hbot : 0 < dims.bottomDiameter)
    (htaper : dims.topDiameter < dims.bottomDiameter) (hh : 0 < dims.height) :
    angleOf dims =
      2 * π * (rBottomOf dims - rTopOf dims) / slantHeightOf dims ∧
    angleOf dims < 2 * π ∧
    ∃ pd, calculatePatternData dims = Except.ok pd :=
  ⟨angle_eq_rsub_div_slant dims hbot htaper hh.ne',
    angle_lt_two_pi dims hbot htaper hh.ne',
    ⟨_, calculate_ok dims hbot htaper hh⟩⟩

/-- C4 witness at `top = 20, bottom = 30, height = 20`. -/
theorem c4_overflow_unreachable_witness :
    (0 : ℝ) < 30 ∧ (20 : ℝ) < 30 ∧ (0 : ℝ) < 20 ∧
    (angleOf dims20_30 < 2 * π ∧
      ∃ pd, calculatePatternData dims20_30 = Except.ok pd) :=
  ⟨by norm_num, by norm_num, by norm_num,
    (c4_overflow_unreachable dims20_30 (by norm_num [dims20_30])
      (by norm_num [dims20_30]) (by norm_num [dims20_30])).2⟩

/-! ## C3 -/

/-- The spec's "geometrically extreme" input `topDiameter = 1,
bottomDiameter = 100, height = 0.01`. -/
def dims1_100 : LampshadeDimensions :=
  ⟨1, 100, 0.01, LengthUnit.cm, Shape.cone⟩

/-- C3 counterexample: the extreme-ratio input `top = 1, bottom = 100,
height = 0.01` is NOT rejected with `AngleOverflow`: its sector angle is
`2π·49.5/√2450.2501 < 2π`, so `calculatePatternData` succeeds on it. -/
theorem c3_extreme_ratio_counterexample :
    (calculatePatternData dims1_100).isOk = true := by
  rw [calculate_ok dims1_100 (by norm_num [dims1_100])
    (by norm_num [dims1_100]) (by norm_num [dims1_100])]
  rfl

/-- C3 amended: on the frustum path `calculatePatternData` fails with
`AngleOverflow` exactly when the computed sector angle exceeds `2π`; that
guard never fires for a tapered input with positive height (the angle is
then strictly below `2π`), and in particular the extreme-ratio input
`top = 1, bottom = 100, height = 0.01` is accepted, not rejected. -/
theorem c3_angle_overflow_guard (dims : LampshadeDimensions)
    (hne : dims.topDiameter ≠ dims.bottomDiameter)
    (htaper : rTopOf dims < rBottomOf dims) :
    (calculatePatternData dims = Except.error GeometryError.angleOverflow ↔
      2 * π < angleOf dims) ∧
    (calculatePatternData dims1_100).isOk = true := by
  constructor
  · rw [calculatePatternData, if_neg hne, if_neg (not_le.mpr htaper)]
    by_cases h : 2 * π < angleOf dims <;> simp [h]
  · rw [calculate_ok dims1_100 (by norm_num [dims1_100])
      (by norm_num [dims1_100]) (by norm_num [dims1_100])]
    rfl

/-- C3 witness at `top = 20, bottom = 30` (guard equivalence instantiated,
hypotheses discharged concretely). -/
theorem c3_angle_overflow_guard_witness :
    (dims20_30.topDiameter ≠ dims20_30.bottomDiameter ∧
      rTopOf dims20_30 < rBottomOf dims20_30) ∧
    ((calculatePatternData dims20_30 = Except.error GeometryError.angleOverflow ↔
        2 * π < angleOf dims20_30) ∧
      (calculatePatternData dims1_100).isOk = true) :=
  ⟨⟨by norm_num [dims20_30], by rw [rTop_dims20_30, rBottom_dims20_30]; norm_num⟩,
    c3_angle_overflow_guard dims20_30 (by norm_num [dims20_30])
      (by rw [rTop_dims20_30, rBottom_dims20_30]; norm_num)⟩

/-! ## C7 -/

/-- C7 counterexample: for the scenario-B input `top = 20, bottom = 30,
height = 20`, the computed sector angle is NOT approximately `3.048 rad`:
it is `10π/√425 ≈ 1.524`, more than `1.4` away from the claimed value. -/
theorem c7_angle_counterexample :
    ¬ |angleOf dims20_30 - 3.048| < 0.1 := by
  intro h
  rw [abs_lt] at h
  have := angle_dims20_30_ub
  linarith [h.1]

/-- C7 amended: for `top = 20, bottom = 30, height = 20` the calculation
succeeds with `slantHeight = √425 ≈ 20.616`, `outerRadius = 3√425 ≈ 61.85`,
`innerRadius = 2√425 ≈ 41.23`, sector angle `θ = 10π/√425 ≈ 1.524 rad`
(half the spec's stated `3.048`), and large-arc flag `0` since `θ < π`. -/
theorem c7_scenario_b :
    |slantHeightOf dims20_30 - 20.616| < 0.001 ∧
    |LBottomOf dims20_30 - 61.85| < 0.01 ∧
    |LTopOf dims20_30 - 41.23| < 0.01 ∧
    |angleOf dims20_30 - 1.524| < 0.001 ∧
    largeArcFlagOf dims20_30 = 0 ∧
    (calculatePatternData dims20_30).isOk = true := by
  have hlb := sqrt425_lb
  have hub := sqrt425_ub
  refine ⟨?_, ?_, ?_, ?_, ?_, ?_⟩
  · rw [slantHeight_dims20_30, abs_lt]
    constructor <;> linarith
  · rw [LBottom_dims20_30, abs_lt]
    constructor <;> linarith
  · rw [LTop_dims20_30, abs_lt]
    constructor <;> linarith
  · rw [abs_lt]
    exact ⟨by linarith [angle_dims20_30_lb], by linarith [angle_dims20_30_ub]⟩
  · rw [largeArcFlagOf, if_neg (not_lt.mpr ?_)]
    linarith [angle_dims20_30_ub, Real.pi_gt_d4]
  · rw [calculate_ok dims20_30 (by norm_num [dims20_30])
      (by norm_num [dims20_30]) (by norm_num [dims20_30])]
    rfl

/-! ## C8 -/

/-- C8: the tiler's grid size is `columns = ⌈patternWidth /
printableWidth⌉`, `rows = ⌈patternHeight / printableHeight⌉`; for every
positive pattern and page size this is the minimal grid covering the
bounding box (it covers, and no smaller count does), and a pattern exactly
equal to one page gives `rows = columns = 1`. -/
theorem c8_minimal_grid (w h pw ph : ℚ)
    (hw : 0 < w) (hh : 0 < h) (hpw : 0 < pw) (hph : 0 < ph) :
    (gridCols w pw = ⌈w / pw⌉ ∧ gridRows h ph = ⌈h / ph⌉) ∧
    (w ≤ (gridCols w pw : ℚ) * pw ∧
      ∀ n : ℤ, w ≤ (n : ℚ) * pw → gridCols w pw ≤ n) ∧
    (h ≤ (gridRows h ph : ℚ) * ph ∧
      ∀ n : ℤ, h ≤ (n : ℚ) * ph → gridRows h ph ≤ n) ∧
    (w = pw → gridCols w pw = 1) ∧
    (h = ph → gridRows h ph = 1) := by
  refine ⟨⟨rfl, rfl⟩, ⟨?_, ?_⟩, ⟨?_, ?_⟩, ?_, ?_⟩
  · exact (div_le_iff₀ hpw).mp (Int.le_ceil (w / pw))
  · exact fun n hn => Int.ceil_le.mpr ((div_le_iff₀ hpw).mpr hn)
  · exact (div_le_iff₀ hph).mp (Int.le_ceil (h / ph))
  · exact fun n hn => Int.ceil_le.mpr ((div_le_iff₀ hph).mpr hn)
  · intro he
    rw [gridCols, he, div_self hpw.ne']
    exact Int.ceil_one
  · intro he
    rw [gridRows, he, div_self hph.ne']
    exact Int.ceil_one

/-- C8 witness at a 10×10 pattern on 3×3 pages (4×4 grid). -/
theorem c8_minimal_grid_witness :
    ((0 : ℚ) < 10 ∧ (0 : ℚ) < 3) ∧
    ((gridCols 10 3 = ⌈(10 : ℚ) / 3⌉ ∧ gridRows 10 3 = ⌈(10 : ℚ) / 3⌉) ∧
      ((10 : ℚ) ≤ (gridCols 10 3 : ℚ) * 3 ∧
        ∀ n : ℤ, (10 : ℚ) ≤ (n : ℚ) * 3 → gridCols 10 3 ≤ n) ∧
      ((10 : ℚ) ≤ (gridRows 10 3 : ℚ) * 3 ∧
        ∀ n : ℤ, (10 : ℚ) ≤ (n : ℚ) * 3 → gridRows 10 3 ≤ n) ∧
      ((10 : ℚ) = 3 → gridCols 10 3 = 1) ∧
      ((10 : ℚ) = 3 → gridRows 10 3 = 1)) :=
  ⟨⟨by norm_num, by norm_num⟩,
    c8_minimal_grid 10 10 3 3 (by norm_num) (by norm_num) (by norm_num)
      (by norm_num)⟩

/-! ## C9 -/

/-- Full characterization of the marks `handlePrint` puts on page
`(row, col)`. -/
lemma mem_joinMarks (m : JoinMark) (rows cols row col : ℕ) :
    m ∈ joinMarks rows cols row col ↔
      (0 < row ∧ m = ⟨Edge.top, row - 1, col⟩) ∨
      (row < rows - 1 ∧ m = ⟨Edge.bottom, row + 1, col⟩) ∨
      (0 < col ∧ m = ⟨Edge.left, row, col - 1⟩) ∨
      (col < cols - 1 ∧ m = ⟨Edge.right, row, col + 1⟩) := by
  by_cases h1 : 0 < row <;> by_cases h2 : row < rows - 1 <;>
    by_cases h3 : 0 < col <;> by_cases h4 : col < cols - 1 <;>
    simp [joinMarks, h1, h2, h3, h4, List.mem_append]

/-- C9: in a `rows × cols` grid, the page at `(row, col)` carries a top
mark to `(row-1, col)` iff `row > 0`, a bottom mark to `(row+1, col)` iff
`row < rows-1`, a left mark to `(row, col-1)` iff `col > 0`, a right mark
to `(row, col+1)` iff `col < cols-1`; consequently every right mark is
answered by the neighbour's left mark and every bottom mark by the
neighbour's top mark. -/
theorem c9_join_marks (rows cols row col : ℕ)
    (hr : row < rows) (hc : col < cols) :
    ((⟨Edge.top, row - 1, col⟩ : JoinMark) ∈ joinMarks rows cols row col ↔
      0 < row) ∧
    ((⟨Edge.bottom, row + 1, col⟩ : JoinMark) ∈ joinMarks rows cols row col ↔
      row < rows - 1) ∧
    ((⟨Edge.left, row, col - 1⟩ : JoinMark) ∈ joinMarks rows cols row col ↔
      0 < col) ∧
    ((⟨Edge.right, row, col + 1⟩ : JoinMark) ∈ joinMarks rows cols row col ↔
      col < cols - 1) ∧
    ((⟨Edge.right, row, col + 1⟩ : JoinMark) ∈ joinMarks rows cols row col →
      (⟨Edge.left, row, col⟩ : JoinMark) ∈ joinMarks rows cols row (col + 1)) ∧
    ((⟨Edge.bottom, row + 1, col⟩ : JoinMark) ∈ joinMarks rows cols row col →
      (⟨Edge.top, row, col⟩ : JoinMark) ∈ joinMarks rows cols (row + 1) col) := by
  refine ⟨?_, ?_, ?_, ?_, ?_, ?_⟩
  · rw [mem_joinMarks]; simp
  · rw [mem_joinMarks]; simp
  · rw [mem_joinMarks]; simp
  · rw [mem_joinMarks]; simp
  · intro hmem
    rw [mem_joinMarks] at hmem
    rw [mem_joinMarks]
    simp_all
  · intro hmem
    rw [mem_joinMarks] at hmem
    rw [mem_joinMarks]
    simp_all

/-- C9 witness on a 2×3 grid at the middle page `(1, 1)`. -/
theorem c9_join_marks_witness :
    ((1 : ℕ) < 2 ∧ (1 : ℕ) < 3) ∧
    (((⟨Edge.top, 0, 1⟩ : JoinMark) ∈ joinMarks 2 3 1 1 ↔ 0 < 1) ∧
      ((⟨Edge.bottom, 2, 1⟩ : JoinMark) ∈ joinMarks 2 3 1 1 ↔ 1 < 2 - 1) ∧
      ((⟨Edge.left, 1, 0⟩ : JoinMark) ∈ joinMarks 2 3 1 1 ↔ 0 < 1) ∧
      ((⟨Edge.right, 1, 2⟩ : JoinMark) ∈ joinMarks 2 3 1 1 ↔ 1 < 3 - 1) ∧
      ((⟨Edge.right, 1, 2⟩ : JoinMark) ∈ joinMarks 2 3 1 1 →
        (⟨Edge.left, 1, 1⟩ : JoinMark) ∈ joinMarks 2 3 1 2) ∧
      ((⟨Edge.bottom, 2, 1⟩ : JoinMark) ∈ joinMarks 2 3 1 1 →
        (⟨Edge.top, 1, 1⟩ : JoinMark) ∈ joinMarks 2 3 2 1)) :=
  ⟨⟨by norm_num, by norm_num⟩,
    c9_join_marks 2 3 1 1 (by norm_num) (by norm_num)⟩

/-! ## C10 -/

lemma length_pagesOf (rows cols : ℕ) (pw ph : ℚ) :
    (pagesOf rows cols pw ph).length = rows * cols := by
  simp [pagesOf, Function.comp_def, List.map_const', List.sum_replicate,
    smul_eq_mul]

lemma mem_pagesOf (rows cols : ℕ) (pw ph : ℚ) (r c : ℕ)
    (hr : r < rows) (hc : c < cols) :
    (⟨r, c, -(c * pw), -(r * ph), joinMarks rows cols r c⟩ : PageTile) ∈
      pagesOf rows cols pw ph := by
  simp only [pagesOf, List.mem_flatMap, List.mem_map, List.mem_range]
  exact ⟨r, hr, c, hc, rfl⟩

/-- C10: when the computed grid exceeds the hard-coded 50-tile safety
ceiling `handlePrint` bails out with the too-large failure and emits no
pages at all; when it does not exceed the ceiling, the complete row-major
layout is produced: one page per grid cell `(r, c)` with offsets
`(-c·printableWidth, -r·printableHeight)` and its join marks. -/
theorem c10_tile_ceiling (w h pw ph : ℚ)
    (hw : 0 < w) (hh : 0 < h) (hpw : 0 < pw) (hph : 0 < ph) :
    (50 < (gridCols w pw).toNat * (gridRows h ph).toNat →
      handlePrintLayout w h pw ph = Except.error TileError.patternTooLarge) ∧
    ((gridCols w pw).toNat * (gridRows h ph).toNat ≤ 50 →
      handlePrintLayout w h pw ph =
        Except.ok ⟨(gridRows h ph).toNat, (gridCols w pw).toNat,
          pagesOf (gridRows h ph).toNat (gridCols w pw).toNat pw ph⟩ ∧
      (pagesOf (gridRows h ph).toNat (gridCols w pw).toNat pw ph).length =
        (gridRows h ph).toNat * (gridCols w pw).toNat ∧
      ∀ r c : ℕ, r < (gridRows h ph).toNat → c < (gridCols w pw).toNat →
        (⟨r, c, -(c * pw), -(r * ph),
          joinMarks (gridRows h ph).toNat (gridCols w pw).toNat r c⟩ :
            PageTile) ∈
          pagesOf (gridRows h ph).toNat (gridCols w pw).toNat pw ph) := by
  constructor
  · intro hgt
    rw [handlePrintLayout, if_pos hgt]
  · intro hle
    refine ⟨?_, length_pagesOf _ _ _ _, fun r c hr hc => mem_pagesOf _ _ _ _ _ _ hr hc⟩
    rw [handlePrintLayout, if_neg (not_lt.mpr hle)]

/-- C10 witness: a 100×100 pattern on 10×10 pages needs a 10×10 grid of
100 pages, over the ceiling. -/
theorem c10_tile_ceiling_witness :
    ((0 : ℚ) < 100 ∧ (0 : ℚ) < 10) ∧
    ((50 < (gridCols 100 10).toNat * (gridRows 100 10).toNat →
        handlePrintLayout 100 100 10 10 =
          Except.error TileError.patternTooLarge) ∧
      ((gridCols 100 10).toNat * (gridRows 100 10).toNat ≤ 50 →
        handlePrintLayout 100 100 10 10 =
          Except.ok ⟨(gridRows 100 10).toNat, (gridCols 100 10).toNat,
            pagesOf (gridRows 100 10).toNat (gridCols 100 10).toNat 10 10⟩ ∧
        (pagesOf (gridRows 100 10).toNat (gridCols 100 10).toNat 10 10).length =
          (gridRows 100 10).toNat * (gridCols 100 10).toNat ∧
        ∀ r c : ℕ, r < (gridRows 100 10).toNat → c < (gridCols 100 10).toNat →
          (⟨r, c, -(c * (10 : ℚ)), -(r * (10 : ℚ)),
            joinMarks (gridRows 100 10).toNat (gridCols 100 10).toNat r c⟩ :
              PageTile) ∈
            pagesOf (gridRows 100 10).toNat (gridCols 100 10).toNat 10 10)) :=
  ⟨⟨by norm_num, by norm_num⟩,
    c10_tile_ceiling 100 100 10 10 (by norm_num) (by norm_num) (by norm_num)
      (by norm_num)⟩

end Lampshades
